import Mathlib

/-!
Verification of the task-management client of the Todo-Full-Stack-Web-Application
repository.  The definitions below are a shallow embedding of:

  * `frontend/types.ts` — the `Task` data model and `computeStats`;
  * `frontend/hooks/use-tasks.ts` — the optimistic CRUD mutations
    (`createTask`, `updateTask`, `deleteTask`, `toggleComplete`) and
    `fetchTasks`;
  * `frontend/lib/api.ts` — the `ApiClient` (shared `request` path, the
    per-endpoint wrappers, `getAccessToken`, `getUserId`);
  * the backend Authorization Gate, which is not part of the sources and is
    therefore modelled from the specification where a claim needs it.

Each asynchronous client operation is embedded as explicit state passing:
the code that runs before the `await` of the network call determines the
"in flight" local list, and the code in the `then` / `catch` continuations
determines the final local list as a function of the network result
(`Except ApiError α`).  Strings stay `String`, numeric ids stay `Nat`,
booleans stay `Bool`; JSON (de)serialisation of stored values is modelled
as the values themselves.
-/

namespace Todo

-- =============================================================================
-- Data model (frontend/types.ts)
-- =============================================================================

/-- Embeds the `Task` interface of `types.ts`: numeric id, owning user id,
title, optional description, completion flag, and the two ISO timestamps. -/
structure Task where
  id : Nat
  user_id : String
  title : String
  description : Option String
  is_completed : Bool
  created_at : String
  updated_at : String
deriving DecidableEq, Repr

/-- Embeds `CreateTaskRequest` of `types.ts`; the optional `description`
field is `none` when the key is absent. -/
structure CreateTaskRequest where
  title : String
  description : Option String
deriving DecidableEq, Repr

/-- Embeds `UpdateTaskRequest` of `types.ts`; the optional `description`
field is `none` when the key is absent. -/
structure UpdateTaskRequest where
  title : String
  description : Option String
deriving DecidableEq, Repr

/-- Embeds `TaskStats` of `types.ts`. -/
structure TaskStats where
  total : Nat
  pending : Nat
  completed : Nat
deriving DecidableEq, Repr

/-- Embeds `computeStats` of `types.ts`:
`total` is the list length, `completed` the length of the filter on
`is_completed`, `pending` the length of the filter on its negation. -/
def computeStats (tasks : List Task) : TaskStats :=
  { total := tasks.length
    completed := (tasks.filter fun t => t.is_completed).length
    pending := (tasks.filter fun t => !t.is_completed).length }

/-- Embeds the `ApiError` class of `lib/api.ts`: an HTTP status and a
human-readable detail string. -/
structure ApiError where
  status : Nat
  detail : String
deriving DecidableEq, Repr

-- =============================================================================
-- Local mutations of use-tasks.ts
-- =============================================================================

/-- Embeds the TypeScript object spread `{ ...task, ...data }` used by the
optimistic branch of `updateTask`: the required `title` always overrides,
the optional `description` overrides only when the key is present. -/
def applySpreadUpdate (t : Task) (d : UpdateTaskRequest) : Task :=
  { t with
    title := d.title
    description := match d.description with
      | some s => some s
      | none => t.description }

/-- Embeds the optimistic `setTasks` updater of `updateTask` in
`use-tasks.ts` (lines 113-117): map the list, spreading `data` onto the
task whose id matches. -/
def updateTaskOptimistic (taskId : Nat) (d : UpdateTaskRequest)
    (l : List Task) : List Task :=
  l.map fun t => if t.id = taskId then applySpreadUpdate t d else t

/-- Embeds the reconciliation `setTasks` updater used by `updateTask` and
`toggleComplete` on success (lines 121-123 and 172-174): replace the task
whose id matches with the server-confirmed entity. -/
def reconcileTask (taskId : Nat) (updated : Task) (l : List Task) : List Task :=
  l.map fun t => if t.id = taskId then updated else t

/-- Embeds the optimistic `setTasks` updater of `deleteTask` (line 142):
filter out the task whose id matches. -/
def deleteTaskOptimistic (taskId : Nat) (l : List Task) : List Task :=
  l.filter fun t => t.id ≠ taskId

/-- Embeds the optimistic `setTasks` updater of `toggleComplete`
(lines 164-168): flip `is_completed` on the task whose id matches. -/
def toggleOptimistic (taskId : Nat) (l : List Task) : List Task :=
  l.map fun t =>
    if t.id = taskId then { t with is_completed := !t.is_completed } else t

/-- Embeds the `setTasks` updater of `createTask` (lines 81-92): if some
task already carries the id of the response, return the list unchanged,
otherwise prepend the new task. -/
def insertCreated (newTask : Task) (l : List Task) : List Task :=
  if l.any fun t => t.id = newTask.id then l else newTask :: l

-- =============================================================================
-- The asynchronous operations of use-tasks.ts as two-phase state functions
-- =============================================================================

/-- Embeds `updateTask` in `use-tasks.ts` up to its `await`: the snapshot
`previousTasks` is taken and the optimistic updater is applied, so this is
the local list while the request is in flight. -/
def updateTask_inFlight (tasks : List Task) (taskId : Nat)
    (d : UpdateTaskRequest) : List Task :=
  updateTaskOptimistic taskId d tasks

/-- Embeds `updateTask` in `use-tasks.ts` after its `await` resolves: on
success the server entity replaces the optimistic entry, on failure the
snapshot `previousTasks` (the list as it was when the call was issued) is
restored. -/
def updateTask_final (tasks : List Task) (taskId : Nat)
    (d : UpdateTaskRequest) (result : Except ApiError Task) : List Task :=
  let previousTasks := tasks
  match result with
  | Except.ok updatedTask =>
      reconcileTask taskId updatedTask (updateTask_inFlight tasks taskId d)
  | Except.error _ => previousTasks

/-- Embeds `deleteTask` in `use-tasks.ts` up to its `await`: the snapshot
is taken and the matching task is filtered out of the local list. -/
def deleteTask_inFlight (tasks : List Task) (taskId : Nat) : List Task :=
  deleteTaskOptimistic taskId tasks

/-- Embeds `deleteTask` in `use-tasks.ts` after its `await` resolves: on
success the optimistic list stands, on failure the snapshot is restored. -/
def deleteTask_final (tasks : List Task) (taskId : Nat)
    (result : Except ApiError Unit) : List Task :=
  let previousTasks := tasks
  match result with
  | Except.ok _ => deleteTask_inFlight tasks taskId
  | Except.error _ => previousTasks

/-- Embeds `toggleComplete` in `use-tasks.ts` up to its `await`: the
snapshot is taken and the completion flag of the matching task is flipped
in the local list. -/
def toggleComplete_inFlight (tasks : List Task) (taskId : Nat) : List Task :=
  toggleOptimistic taskId tasks

/-- Embeds `toggleComplete` in `use-tasks.ts` after its `await` resolves:
on success the server entity replaces the flipped entry, on failure the
snapshot is restored. -/
def toggleComplete_final (tasks : List Task) (taskId : Nat)
    (result : Except ApiError Task) : List Task :=
  let previousTasks := tasks
  match result with
  | Except.ok updatedTask =>
      reconcileTask taskId updatedTask (toggleComplete_inFlight tasks taskId)
  | Except.error _ => previousTasks

/-- Embeds `createTask` in `use-tasks.ts` up to its `await`: the function
body awaits `api.createTask(data)` first, so no local mutation happens
before the network call — the in-flight list is the starting list. -/
def createTask_inFlight (tasks : List Task) (_d : CreateTaskRequest) :
    List Task :=
  tasks

/-- Embeds `createTask` in `use-tasks.ts` after its `await` resolves: on
success the duplicate-guarded insertion runs, on failure the list is left
untouched (the catch branch only raises a toast). -/
def createTask_final (tasks : List Task) (_d : CreateTaskRequest)
    (result : Except ApiError Task) : List Task :=
  match result with
  | Except.ok newTask => insertCreated newTask tasks
  | Except.error _ => tasks

/-- Embeds the success branch of `fetchTasks` in `use-tasks.ts`
(lines 45-66): on success `setTasks(response.tasks)` replaces the local
list with the fetched list; on failure the list is left untouched. -/
def fetchTasks_final (current : List Task)
    (result : Except ApiError (List Task)) : List Task :=
  match result with
  | Except.ok fetched => fetched
  | Except.error _ => current

/-- Embeds the error-state handling of `fetchTasks` in `use-tasks.ts`:
`setError(null)` runs first; in the catch branch `setError(err.detail)`
runs only when the `ApiError` status is not 401 (401 is handled by the
redirect inside the API client). -/
def fetchTasks_errorState (result : Except ApiError (List Task)) :
    Option String :=
  match result with
  | Except.ok _ => none
  | Except.error e => if e.status ≠ 401 then some e.detail else none

-- =============================================================================
-- Theorems: C1, C5, C7, C9
-- =============================================================================

/-- C1: for every task list and every failing network call of a mutating
operation (`updateTask`, `deleteTask`, `toggleComplete`), the client task
list after the failed call equals the task list before the call was
issued: the pre-mutation snapshot is restored exactly. -/
theorem rollback_restores_snapshot (tasks : List Task) (taskId : Nat)
    (d : UpdateTaskRequest) (e : ApiError) :
    updateTask_final tasks taskId d (Except.error e) = tasks
    ∧ deleteTask_final tasks taskId (Except.error e) = tasks
    ∧ toggleComplete_final tasks taskId (Except.error e) = tasks :=
  ⟨rfl, rfl, rfl⟩

/-- C5: applying the local toggle-complete mutation twice to the same task
id returns every task — in particular the targeted one — to its original
completion state: the optimistic flip composed with itself is the
identity on the list. -/
theorem toggle_twice_identity (tasks : List Task) (taskId : Nat) :
    toggleOptimistic taskId (toggleOptimistic taskId tasks) = tasks := by
  induction tasks with
  | nil => rfl
  | cons t ts ih =>
      simp only [toggleOptimistic, List.map_cons, List.map_map] at *
      simp only [List.cons.injEq]
      refine ⟨?_, ih⟩
      obtain ⟨i, u, ti, de, c, ca, ua⟩ := t
      by_cases h : i = taskId <;> simp [h, Function.comp]

/-- C7: the list fetch is non-optimistic — for every current local list
and every successful fetch response, the resulting local state is exactly
the fetched task list, independent of the prior local entries. -/
theorem fetch_replaces_list (current other fetched : List Task) :
    fetchTasks_final current (Except.ok fetched) = fetched
    ∧ fetchTasks_final current (Except.ok fetched)
        = fetchTasks_final other (Except.ok fetched) :=
  ⟨rfl, rfl⟩

/-- Helper: the lengths of a filter on a boolean predicate and of the
filter on its negation add up to the length of the list. -/
theorem length_filter_add_length_filter_not (p : Task → Bool)
    (l : List Task) :
    (l.filter fun t => !p t).length + (l.filter p).length = l.length := by
  induction l with
  | nil => rfl
  | cons t ts ih =>
      by_cases h : p t
      · simp [List.filter_cons, h]
        omega
      · simp [List.filter_cons, h]
        omega

/-- C9: `computeStats` returns `total` equal to the length of the list,
`completed` equal to the number of tasks with `is_completed = true`,
`pending` equal to the number with `is_completed = false`, and therefore
`pending + completed = total`. -/
theorem computeStats_correct (tasks : List Task) :
    (computeStats tasks).total = tasks.length
    ∧ (computeStats tasks).completed
        = tasks.countP (fun t => t.is_completed)
    ∧ (computeStats tasks).pending
        = tasks.countP (fun t => !t.is_completed)
    ∧ (computeStats tasks).pending + (computeStats tasks).completed
        = (computeStats tasks).total := by
  refine ⟨rfl, ?_, ?_, ?_⟩
  · simp [computeStats, List.countP_eq_length_filter]
  · simp [computeStats, List.countP_eq_length_filter]
  · exact length_filter_add_length_filter_not (fun t => t.is_completed) tasks

-- =============================================================================
-- Theorems: C2 (create is not optimistic), C3 (duplicate guard), C10 (frame)
-- =============================================================================

/-- C2 counterexample: `createTask` does not apply any local mutation
before its network request — on the empty starting list the in-flight
local state is still empty, so it cannot reflect the creation. -/
theorem createTask_not_optimistic_cex :
    createTask_inFlight ([] : List Task) ⟨"Buy milk", none⟩ = ([] : List Task)
    ∧ ¬ ∃ t : Task,
        t ∈ createTask_inFlight ([] : List Task) ⟨"Buy milk", none⟩ := by
  refine ⟨rfl, ?_⟩
  rintro ⟨t, ht⟩
  simp [createTask_inFlight] at ht

/-- C2 amended: `updateTask`, `deleteTask` and `toggleComplete` snapshot
the current list and apply their mutation to local state before the
network request — in flight, the task targeted by a delete is already
absent — while `createTask` leaves the local list untouched until the
response arrives, inserting only on success. -/
theorem optimistic_before_request_amended (tasks : List Task) (taskId : Nat)
    (d : UpdateTaskRequest) (c : CreateTaskRequest) (e : ApiError) :
    updateTask_inFlight tasks taskId d = updateTaskOptimistic taskId d tasks
    ∧ deleteTask_inFlight tasks taskId = deleteTaskOptimistic taskId tasks
    ∧ (deleteTask_inFlight tasks taskId).countP (fun t => t.id = taskId) = 0
    ∧ toggleComplete_inFlight tasks taskId = toggleOptimistic taskId tasks
    ∧ createTask_inFlight tasks c = tasks
    ∧ createTask_final tasks c (Except.error e) = tasks := by
  refine ⟨rfl, rfl, ?_, rfl, rfl, rfl⟩
  rw [List.countP_eq_zero]
  intro t ht
  simp only [deleteTask_inFlight, deleteTaskOptimistic, List.mem_filter] at ht
  simpa using ht.2

/-- Concrete task used to exercise the duplicate guard of `createTask`. -/
def cexCreatedTask : Task :=
  ⟨1, "u1", "Buy milk", none, false, "2024-01-01", "2024-01-01"⟩

/-- C3 counterexample: on a starting list that already holds two tasks
with the id of the create response, applying the insertion twice is a
no-op both times, so the result contains two tasks with that id, not
exactly one. -/
theorem duplicate_guard_cex :
    (insertCreated cexCreatedTask
        (insertCreated cexCreatedTask [cexCreatedTask, cexCreatedTask])).countP
      (fun t => t.id = cexCreatedTask.id) = 2
    ∧ ¬ (insertCreated cexCreatedTask
        (insertCreated cexCreatedTask [cexCreatedTask, cexCreatedTask])).countP
      (fun t => t.id = cexCreatedTask.id) = 1 := by
  constructor
  · rfl
  · intro h
    rw [show (insertCreated cexCreatedTask
        (insertCreated cexCreatedTask [cexCreatedTask, cexCreatedTask])).countP
      (fun t => t.id = cexCreatedTask.id) = 2 from rfl] at h
    exact absurd h (by decide)

/-- C3 amended: when the starting list holds at most one task with the id
of the create response — the situation every reachable client state is in,
since server ids are unique — applying the create insertion twice yields a
list with exactly one task carrying that id; the insertion checks by id
first and is a no-op when the id is already present. -/
theorem duplicate_guard_amended (l : List Task) (r : Task)
    (h : l.countP (fun t => t.id = r.id) ≤ 1) :
    (insertCreated r (insertCreated r l)).countP
      (fun t => t.id = r.id) = 1 := by
  by_cases hany : (l.any fun t => t.id = r.id) = true
  · have hnoop : insertCreated r l = l := by simp [insertCreated, hany]
    rw [hnoop, hnoop]
    have hpos : 0 < l.countP (fun t => t.id = r.id) := by
      rw [List.countP_pos_iff]
      obtain ⟨t, htl, htid⟩ := List.any_eq_true.mp hany
      exact ⟨t, htl, htid⟩
    omega
  · have hzero : l.countP (fun t => t.id = r.id) = 0 := by
      rw [List.countP_eq_zero]
      intro t htl
      exact fun htid =>
        hany (List.any_eq_true.mpr ⟨t, htl, htid⟩)
    have hfst : insertCreated r l = r :: l := by
      simp [insertCreated, hany]
    rw [hfst]
    have hsnd : insertCreated r (r :: l) = r :: l := by
      simp [insertCreated]
    rw [hsnd, List.countP_cons_of_pos _ _ (by simp), hzero]

/-- C3 witness: the amended duplicate guard at the empty starting list. -/
theorem duplicate_guard_amended_witness :
    ([] : List Task).countP (fun t => t.id = cexCreatedTask.id) ≤ 1
    ∧ (insertCreated cexCreatedTask
        (insertCreated cexCreatedTask [])).countP
      (fun t => t.id = cexCreatedTask.id) = 1 :=
  ⟨by decide, duplicate_guard_amended [] cexCreatedTask (by decide)⟩

/-- C10: the optimistic mutations are frame-preserving — update and
toggle keep the list length and leave every position holding a task whose
id differs from the target untouched, and delete yields a sublist (order
preserved) containing exactly the tasks whose id differs from the
target. -/
theorem local_mutations_frame (l : List Task) (taskId : Nat)
    (d : UpdateTaskRequest) :
    ((updateTaskOptimistic taskId d l).length = l.length
      ∧ ∀ i : Nat, ∀ t : Task, l[i]? = some t → t.id ≠ taskId →
          (updateTaskOptimistic taskId d l)[i]? = some t)
    ∧ ((toggleOptimistic taskId l).length = l.length
      ∧ ∀ i : Nat, ∀ t : Task, l[i]? = some t → t.id ≠ taskId →
          (toggleOptimistic taskId l)[i]? = some t)
    ∧ ((deleteTaskOptimistic taskId l).Sublist l
      ∧ ∀ t : Task, t ∈ deleteTaskOptimistic taskId l ↔
          t ∈ l ∧ t.id ≠ taskId) := by
  refine ⟨⟨?_, ?_⟩, ⟨?_, ?_⟩, ?_, ?_⟩
  · exact List.length_map l _
  · intro i t ht hid
    rw [updateTaskOptimistic, List.getElem?_map, ht]
    simp [hid]
  · exact List.length_map l _
  · intro i t ht hid
    rw [toggleOptimistic, List.getElem?_map, ht]
    simp [hid]
  · exact List.filter_sublist l
  · intro t
    simp [deleteTaskOptimistic, List.mem_filter]

/-- Concrete two-task list used to exercise the frame property. -/
def cexFrameList : List Task :=
  [⟨1, "u1", "First", none, false, "2024-01-01", "2024-01-01"⟩,
   ⟨2, "u1", "Second", some "note", true, "2024-01-02", "2024-01-02"⟩]

/-- C10 witness: in the concrete two-task list, optimistically updating
task 1 leaves the task at position 1 (id 2) exactly as it was. -/
theorem local_mutations_frame_witness :
    (updateTaskOptimistic 1 ⟨"New title", none⟩ cexFrameList)[1]? =
      some ⟨2, "u1", "Second", some "note", true, "2024-01-02", "2024-01-02"⟩ :=
  (local_mutations_frame cexFrameList 1 ⟨"New title", none⟩).1.2 1
    ⟨2, "u1", "Second", some "note", true, "2024-01-02", "2024-01-02"⟩
    (by decide) (by decide)

-- =============================================================================
-- ApiClient of lib/api.ts: storage, endpoints, shared request path
-- =============================================================================

/-- Embeds the `User` interface of `types.ts`, as stored in JSON under the
`user` key of localStorage. -/
structure StoredUser where
  id : String
  email : String
  name : String
deriving DecidableEq, Repr

/-- Embeds the browser storage read by `getAccessToken` and `getUserId` in
`lib/api.ts`: the `access_token` and `user` keys of localStorage, each
possibly absent. -/
structure ClientStorage where
  access_token : Option String
  user : Option StoredUser
deriving DecidableEq, Repr

/-- Embeds `getAccessToken` of `lib/api.ts`: read the `access_token`
key. -/
def getAccessToken (s : ClientStorage) : Option String :=
  s.access_token

/-- Embeds `getUserId` of `lib/api.ts`: read the `user` key and return its
`id` field when present. -/
def getUserId (s : ClientStorage) : Option String :=
  s.user.map StoredUser.id

/-- The six task endpoints exposed by `ApiClient` in `lib/api.ts`. -/
inductive Endpoint where
  | getTasks
  | getTask (taskId : Nat)
  | createTask (d : CreateTaskRequest)
  | updateTask (taskId : Nat) (d : UpdateTaskRequest)
  | deleteTask (taskId : Nat)
  | toggleComplete (taskId : Nat)
deriving DecidableEq, Repr

/-- Embeds the URL each endpoint wrapper of `lib/api.ts` passes to
`request`, scoped by the user id interpolated into the path. -/
def endpointPath (userId : String) : Endpoint → String
  | Endpoint.getTasks => "/api/" ++ userId ++ "/tasks"
  | Endpoint.getTask taskId => "/api/" ++ userId ++ "/tasks/" ++ toString taskId
  | Endpoint.createTask _ => "/api/" ++ userId ++ "/tasks"
  | Endpoint.updateTask taskId _ =>
      "/api/" ++ userId ++ "/tasks/" ++ toString taskId
  | Endpoint.deleteTask taskId =>
      "/api/" ++ userId ++ "/tasks/" ++ toString taskId
  | Endpoint.toggleComplete taskId =>
      "/api/" ++ userId ++ "/tasks/" ++ toString taskId ++ "/complete"

/-- Embeds the HTTP method each endpoint wrapper of `lib/api.ts` uses;
`fetch` defaults a bodyless request with no method option to GET. -/
def endpointMethod : Endpoint → String
  | Endpoint.getTasks => "GET"
  | Endpoint.getTask _ => "GET"
  | Endpoint.createTask _ => "POST"
  | Endpoint.updateTask _ _ => "PUT"
  | Endpoint.deleteTask _ => "DELETE"
  | Endpoint.toggleComplete _ => "PATCH"

/-- The observable shape of a network request assembled by
`ApiClient.request`: method, path, and the value of the `Authorization`
header when one is attached. -/
structure IssuedRequest where
  method : String
  path : String
  authorization : Option String
deriving DecidableEq, Repr

/-- Embeds the pre-network behaviour shared by the six endpoint wrappers
of `ApiClient` in `lib/api.ts`: each reads `getUserId()`, throws
`ApiError(401, Not authenticated)` when it is null — before any fetch —
and otherwise calls `request` on the user-scoped path; `request` attaches
`Authorization: Bearer <token>` exactly when `getAccessToken()` is
non-null. -/
def apiCall (storage : ClientStorage) (ep : Endpoint) :
    Except ApiError IssuedRequest :=
  match getUserId storage with
  | none => Except.error ⟨401, "Not authenticated"⟩
  | some userId =>
      Except.ok
        { method := endpointMethod ep
          path := endpointPath userId ep
          authorization :=
            (getAccessToken storage).map fun tok => "Bearer " ++ tok }

/-- The network outcome `ApiClient.request` reacts to: a parsed success
value, or a non-ok response with its status and the `detail` field of the
error body when that body parsed. -/
inductive NetResult (α : Type) where
  | success (value : α)
  | failure (status : Nat) (detail : Option String)

/-- The client-observable result of one pass through `ApiClient.request`:
the storage afterwards, the navigation target set via
`window.location.href` if any, and the returned or thrown value. -/
structure RequestOutcome (α : Type) where
  storage : ClientStorage
  redirectTo : Option String
  result : Except ApiError α

/-- Embeds the response handling of `ApiClient.request` in `lib/api.ts`
(lines 274-303): on a non-ok response the detail defaults to
`An error occurred` when the body did not parse; on status 401 the stored
token and user are removed and the location is set to `/login`; in every
non-ok case an `ApiError` with the status and detail is thrown. -/
def requestOutcome {α : Type} (storage : ClientStorage)
    (resp : NetResult α) : RequestOutcome α :=
  match resp with
  | NetResult.success v => ⟨storage, none, Except.ok v⟩
  | NetResult.failure status detailOpt =>
      let detail := detailOpt.getD "An error occurred"
      if status = 401 then
        ⟨⟨none, none⟩, some "/login", Except.error ⟨status, detail⟩⟩
      else
        ⟨storage, none, Except.error ⟨status, detail⟩⟩

-- =============================================================================
-- Theorems: C6 and C8
-- =============================================================================

/-- C6: for every request issued through the shared `ApiClient.request`
path, a 401 response clears the stored access token and user data and
redirects to the login page; and `fetchTasks` surfaces no inline error for
a 401 (its error state stays null). -/
theorem unauthorized_clears_and_redirects {α : Type}
    (storage : ClientStorage) (body : Option String) (detail : String) :
    (requestOutcome storage (NetResult.failure 401 body : NetResult α)).storage
        = ⟨none, none⟩
    ∧ (requestOutcome storage
        (NetResult.failure 401 body : NetResult α)).redirectTo
        = some "/login"
    ∧ fetchTasks_errorState (Except.error ⟨401, detail⟩) = none := by
  refine ⟨rfl, rfl, ?_⟩
  simp [fetchTasks_errorState]

/-- Client storage holding a stored user but no access token, the state
the `ApiClient` guards do not anticipate. -/
def cexTokenlessStorage : ClientStorage :=
  ⟨none, some ⟨"u1", "alice@example.com", "Alice"⟩⟩

/-- C8 counterexample: with a user stored but no access token stored, the
endpoint wrappers do not fail with a 401 before the network call — a
request is issued, scoped to the stored user id, but it carries no
`Authorization` header. -/
theorem api_requires_token_cex :
    cexTokenlessStorage.user = some ⟨"u1", "alice@example.com", "Alice"⟩
    ∧ apiCall cexTokenlessStorage Endpoint.getTasks
        = Except.ok ⟨"GET", "/api/u1/tasks", none⟩ :=
  ⟨rfl, rfl⟩

/-- C8 amended: every task endpoint wrapper fails with a 401 `ApiError`
before issuing any network request when no user object is stored, and
otherwise issues its request with the path scoped to the stored user id
and with the `Authorization: Bearer` header attached exactly when an
access token is also stored. -/
theorem apiCall_auth_behaviour (storage : ClientStorage) (ep : Endpoint) :
    (storage.user = none →
        apiCall storage ep = Except.error ⟨401, "Not authenticated"⟩)
    ∧ (∀ u : StoredUser, storage.user = some u →
        apiCall storage ep = Except.ok
          ⟨endpointMethod ep, endpointPath u.id ep,
            storage.access_token.map fun tok => "Bearer " ++ tok⟩) := by
  constructor
  · intro hnone
    simp [apiCall, getUserId, hnone]
  · intro u hu
    simp [apiCall, getUserId, getAccessToken, hu]

/-- C8 witness: the amended behaviour at a storage with both user and
token, and at the empty storage. -/
theorem apiCall_auth_behaviour_witness :
    apiCall ⟨some "tok", some ⟨"u1", "alice@example.com", "Alice"⟩⟩
        Endpoint.getTasks
        = Except.ok ⟨"GET", "/api/u1/tasks", some "Bearer tok"⟩
    ∧ apiCall ⟨none, none⟩ Endpoint.getTasks
        = Except.error ⟨401, "Not authenticated"⟩ := by
  constructor
  · exact (apiCall_auth_behaviour
      ⟨some "tok", some ⟨"u1", "alice@example.com", "Alice"⟩⟩
      Endpoint.getTasks).2 ⟨"u1", "alice@example.com", "Alice"⟩ rfl
  · exact (apiCall_auth_behaviour ⟨none, none⟩ Endpoint.getTasks).1 rfl

-- =============================================================================
-- Authorization Gate and Data Access Layer (backend, modelled from spec)
-- =============================================================================

/-- The JWT claims carried by a bearer token: subject (user id) and
expiry. -/
structure TokenClaims where
  sub : String
  exp : Nat
deriving DecidableEq, Repr

/-- A bearer token: its claims and the secret it was signed with (a valid
signature is modelled as the token having been signed with the shared
secret). -/
structure BearerToken where
  claims : TokenClaims
  signedWith : String
deriving DecidableEq, Repr

/-- The two failure classes of the Authorization Gate. -/
inductive AuthFailure where
  | authenticationError
  | authorizationError
deriving DecidableEq, Repr

/-- Modelled from the spec: the backend Authorization Gate is not among
the source files (only the frontend client is). Following section 4.1,
the gate (1) verifies the token signature and expiry against the shared
secret, failing with an authentication error if invalid or expired;
(2) compares the subject claim byte-for-byte to the target user id from
the request path, failing with an authorization error on mismatch; and
(3) on success passes the verified identity on as the scoping key. -/
def authorizeRequest (secret : String) (now : Nat) (tok : BearerToken)
    (targetUserId : String) : Except AuthFailure String :=
  if tok.signedWith = secret ∧ now < tok.claims.exp then
    if tok.claims.sub = targetUserId then Except.ok tok.claims.sub
    else Except.error AuthFailure.authorizationError
  else Except.error AuthFailure.authenticationError

/-- Modelled from the spec: the Data Access Layer executes persistence
operations scoped to the rows of one user (section 2); a list read returns
exactly the rows owned by the verified identity. -/
def listTasksFor (db : List Task) (userId : String) : List Task :=
  db.filter fun t => t.user_id = userId

/-- Modelled from the spec: the GET tasks request path — the gate runs
first and its verified identity scopes the read. -/
def handleGetTasks (secret : String) (now : Nat) (db : List Task)
    (tok : BearerToken) (targetUserId : String) :
    Except AuthFailure (List Task) :=
  (authorizeRequest secret now tok targetUserId).map fun userId =>
    listTasksFor db userId

/-- Modelled from the spec: the PUT task request path — the gate runs
first and the update touches only the row with the requested id among the
rows of the verified identity. -/
def handleUpdateTask (secret : String) (now : Nat) (db : List Task)
    (tok : BearerToken) (targetUserId : String) (taskId : Nat)
    (d : UpdateTaskRequest) : Except AuthFailure (List Task) :=
  (authorizeRequest secret now tok targetUserId).map fun userId =>
    db.map fun t =>
      if t.id = taskId ∧ t.user_id = userId then applySpreadUpdate t d else t

/-- C4: under a token with a valid signature and unexpired claims,
cross-user access (subject differing from the target user id) fails with
an authorization error on both the read and the mutation path; every task
a successful read returns is owned by the authenticated subject; and a
successful mutation leaves every row not owned by the subject exactly in
place. -/
theorem task_user_isolation (secret : String) (now : Nat) (db : List Task)
    (tok : BearerToken) (targetUserId : String) (taskId : Nat)
    (d : UpdateTaskRequest)
    (hsig : tok.signedWith = secret) (hexp : now < tok.claims.exp) :
    (tok.claims.sub ≠ targetUserId →
        handleGetTasks secret now db tok targetUserId
            = Except.error AuthFailure.authorizationError
        ∧ handleUpdateTask secret now db tok targetUserId taskId d
            = Except.error AuthFailure.authorizationError)
    ∧ (∀ ts : List Task,
        handleGetTasks secret now db tok targetUserId = Except.ok ts →
        ∀ t ∈ ts, t.user_id = tok.claims.sub)
    ∧ (∀ db2 : List Task,
        handleUpdateTask secret now db tok targetUserId taskId d
            = Except.ok db2 →
        ∀ i : Nat, ∀ t : Task, db[i]? = some t →
          t.user_id ≠ tok.claims.sub → db2[i]? = some t) := by
  have hgate_ok : tok.claims.sub = targetUserId →
      authorizeRequest secret now tok targetUserId
        = Except.ok tok.claims.sub := by
    intro hm
    simp [authorizeRequest, hsig, hexp, hm]
  have hgate_err : tok.claims.sub ≠ targetUserId →
      authorizeRequest secret now tok targetUserId
        = Except.error AuthFailure.authorizationError := by
    intro hm
    simp [authorizeRequest, hsig, hexp, hm]
  refine ⟨?_, ?_, ?_⟩
  · intro hne
    constructor
    · simp [handleGetTasks, hgate_err hne, Except.map]
    · simp [handleUpdateTask, hgate_err hne, Except.map]
  · intro ts hts t htm
    by_cases hmatch : tok.claims.sub = targetUserId
    · rw [handleGetTasks, hgate_ok hmatch] at hts
      simp only [Except.map] at hts
      cases hts
      simp only [listTasksFor, List.mem_filter] at htm
      simpa using htm.2
    · rw [handleGetTasks, hgate_err hmatch] at hts
      simp [Except.map] at hts
  · intro db2 hdb2 i t hti hneq
    by_cases hmatch : tok.claims.sub = targetUserId
    · rw [handleUpdateTask, hgate_ok hmatch] at hdb2
      simp only [Except.map] at hdb2
      cases hdb2
      rw [List.getElem?_map, hti]
      simp [hneq]
    · rw [handleUpdateTask, hgate_err hmatch] at hdb2
      simp [Except.map] at hdb2

/-- C4 witness: a validly signed, unexpired token for `alice` targeting
the path of `bob` is rejected with an authorization error on the read
path. -/
theorem task_user_isolation_witness :
    handleGetTasks "secret" 0 [] ⟨⟨"alice", 10⟩, "secret"⟩ "bob"
      = Except.error AuthFailure.authorizationError :=
  ((task_user_isolation "secret" 0 [] ⟨⟨"alice", 10⟩, "secret"⟩ "bob" 0
      ⟨"t", none⟩ rfl (by decide)).1 (by decide)).1

end Todo
